import Mathlib

/-!
# Verification of the esp32_light_and_pump coordination core

Shallow embedding of the parts of the firmware that the specification's
claims talk about, together with theorems settling those claims:

* the BLE secure-session anti-replay window (`replay_accept_and_update`,
  from the BLE component),
* the encrypted-control frame handler and the persist-before-enqueue
  ordering (`handle_encrypted_control`),
* the handshake / HKDF key derivation (`handle_handshake`,
  `crypto_hkdf_sha256`),
* the OTA version policy (`ota_check_version_policy` and the inline
  version gate of `ota_task`),
* the safety shutdown entrypoint and the bounded command FIFO
  (`safety_safe_shutdown`),
* the durable store with CRC-protected primary/backup records
  (`storage_save_config`, `storage_load_config`, `load_and_verify`),
* the schedule engine's "currently on" predicate (`is_currently_on`).

Machine integers are modelled as `Nat` with explicit reductions modulo
`2 ^ 32` / `2 ^ 64` where the C code's fixed-width arithmetic can wrap.
External collaborators (mbedTLS HMAC/AES, cJSON parsing, the libc
timezone database, the NVS flash backend, ECDH) are abstracted as
function parameters; everything the repository itself implements is
translated directly.
-/

namespace Esp32

/-! ## Command records (`ipc.h`) -/

/-- `control_cmd_t` from `ipc.h`. -/
structure ControlCmd where
  actor : Nat
  ts : Nat
  seq : Nat
  light_pct : Nat
  pump_pct : Nat
  ramp_ms : Nat
deriving DecidableEq, Repr

def ACTOR_UNKNOWN : Nat := 0
def ACTOR_BLE : Nat := 1
def ACTOR_SCHEDULE : Nat := 2
def ACTOR_SAFETY : Nat := 3

/-! ## BLE secure-session state and anti-replay window -/

/-- The BLE component's session statics: `s_session_key`,
`s_session_ready`, `s_peer_counter` (uint32), `s_peer_window` (uint64). -/
structure BleState where
  session_key : List Nat
  session_ready : Bool
  peer_counter : Nat
  peer_window : Nat
deriving DecidableEq, Repr

/-- Observable effects of the BLE control path.  `persist c w` stands for
`replay_state_save()` (which writes `s_peer_counter = c` and
`s_peer_window = w` to the durable store); `enqueue cmd` stands for
`xQueueSend(g_cmd_queue, &cmd, 0)`. -/
inductive Event where
  | persist (counter : Nat) (window : Nat)
  | enqueue (cmd : ControlCmd)
deriving DecidableEq, Repr

/-- `replay_accept_and_update` from the BLE component.  Returns the
accept verdict, the updated session state and the trace of effects
(`replay_state_save()` is called on every acceptance, before returning
`true`).  All `uint64` arithmetic is reduced modulo `2 ^ 64`. -/
def replay_accept_and_update (st : BleState) (ctr : Nat) :
    Bool × BleState × List Event :=
  if st.session_ready = false then (false, st, [])
  else if ctr > st.peer_counter then
    let delta := ctr - st.peer_counter
    let w :=
      if delta ≥ 64 then 1
      else ((st.peer_window <<< delta) % 2 ^ 64) ||| 1
    let st' := { st with peer_counter := ctr, peer_window := w }
    (true, st', [Event.persist st'.peer_counter st'.peer_window])
  else
    let back := st.peer_counter - ctr
    if back ≥ 64 then (false, st, [])
    else
      let mask := 1 <<< back
      if st.peer_window &&& mask ≠ 0 then (false, st, [])
      else
        let st' := { st with peer_window := st.peer_window ||| mask }
        (true, st', [Event.persist st'.peer_counter st'.peer_window])

/-- The replay rules exactly as the specification words them (§4.7
"Replay rules"): verdict and updated `(C, W)` pair, with "bit `back` of
`W` is already set" rendered through `Nat.testBit`. -/
def replay_rules_spec (st : BleState) (c : Nat) : Bool × BleState :=
  let C := st.peer_counter
  let W := st.peer_window
  if c > C then
    let δ := c - C
    let W' := if δ ≥ 64 then 1 else ((W <<< δ) % 2 ^ 64) ||| 1
    (true, { st with peer_counter := c, peer_window := W' })
  else
    let back := C - c
    if back ≥ 64 then (false, st)
    else if W.testBit back then (false, st)
    else (true, { st with peer_window := W ||| (1 <<< back) })

lemma and_one_shiftLeft_ne_zero (w i : Nat) :
    (w &&& (1 <<< i) ≠ 0) ↔ w.testBit i := by
  rw [Nat.shiftLeft_eq, one_mul, Nat.and_two_pow]
  cases h : w.testBit i <;> simp [h]

/-- **C1.** On an established session the replay check accepts/rejects
and updates the counter and window exactly per the spec's replay rules:
for `c > C`, with `δ = c − C`, the window becomes `1` when `δ ≥ 64` and
`(W <<< δ) ||| 1` (in 64-bit arithmetic) otherwise, `C` becomes `c` and
the frame is accepted; for `c ≤ C`, with `back = C − c`, the frame is
rejected when `back ≥ 64` or bit `back` of `W` is set, and otherwise bit
`back` is set and the frame is accepted. -/
theorem replay_accept_matches_spec_rules (st : BleState) (c : Nat)
    (hready : st.session_ready = true) (_hc : c < 2 ^ 32) :
    ((replay_accept_and_update st c).1, (replay_accept_and_update st c).2.1) =
      replay_rules_spec st c := by
  unfold replay_accept_and_update replay_rules_spec
  rw [hready]
  by_cases h1 : c > st.peer_counter
  · simp [h1]
  · by_cases h2 : st.peer_counter - c ≥ 64
    · simp [h1, h2]
    · by_cases h3 : st.peer_window &&& (1 <<< (st.peer_counter - c)) ≠ 0
      · have := (and_one_shiftLeft_ne_zero st.peer_window (st.peer_counter - c)).mp h3
        simp [h1, h2, h3, this]
      · have : st.peer_window.testBit (st.peer_counter - c) = false := by
          by_contra hb
          exact h3 ((and_one_shiftLeft_ne_zero _ _).mpr (by simpa using hb))
        simp [h1, h2, h3, this]

/-- Witness for C1 at a concrete input: state `(C, W) = (5, 1)` with an
established session, incoming counter `7`. -/
theorem replay_accept_matches_spec_rules_witness :
    (({ session_key := [], session_ready := true, peer_counter := 5,
        peer_window := 1 } : BleState).session_ready = true ∧ (7 : Nat) < 2 ^ 32) ∧
    ((replay_accept_and_update
        { session_key := [], session_ready := true, peer_counter := 5,
          peer_window := 1 } 7).1,
      (replay_accept_and_update
        { session_key := [], session_ready := true, peer_counter := 5,
          peer_window := 1 } 7).2.1) =
      replay_rules_spec
        { session_key := [], session_ready := true, peer_counter := 5,
          peer_window := 1 } 7 :=
  ⟨⟨rfl, by decide⟩,
    replay_accept_matches_spec_rules _ 7 rfl (by decide)⟩

/-- **C9 counterexample.** From `(C, W) = (5, 1)` the incoming counter
`3` is accepted, but the resulting state is *not* `(5, 0b10001)`: the
claim's window value is wrong (`back = 2`, so bit 2 is set, not bit 4). -/
theorem replay_5_1_in_3_not_0b10001 :
    ¬ ((replay_accept_and_update
          { session_key := [], session_ready := true, peer_counter := 5,
            peer_window := 1 } 3).1 = true ∧
        (replay_accept_and_update
          { session_key := [], session_ready := true, peer_counter := 5,
            peer_window := 1 } 3).2.1.peer_counter = 5 ∧
        (replay_accept_and_update
          { session_key := [], session_ready := true, peer_counter := 5,
            peer_window := 1 } 3).2.1.peer_window = 0b10001) := by
  decide

/-- **C9 amended.** From `(C, W) = (5, 1)` the incoming counter `3` is
accepted and leaves the state `(5, 0b101)` (bit `back = 2` newly set). -/
theorem replay_5_1_in_3_accepts_0b101 :
    replay_accept_and_update
      { session_key := [], session_ready := true, peer_counter := 5,
        peer_window := 1 } 3 =
    (true,
      { session_key := [], session_ready := true, peer_counter := 5,
        peer_window := 0b101 },
      [Event.persist 5 0b101]) := by
  decide

/-! ## Encrypted control frames -/

/-- The fields of the decrypted control JSON
`{"ctr":N,"ramp_ms":ms,"light":p,"pump":p}` as `cJSON` exposes them:
each is present only when the member exists and is a number (already
cast to the C integer type used at the read site). -/
structure ControlMsg where
  ctr : Option Nat
  ramp_ms : Option Nat
  light : Option Nat
  pump : Option Nat
deriving DecidableEq, Repr

/-- `handle_encrypted_control` from the BLE component.  The AES-GCM
decryption plus cJSON parse of the plaintext is the external oracle
`decryptParse` (applied to the session key and the raw frame; `none`
models a failed tag check, malformed JSON, or a missing/non-numeric
`ctr` is handled separately through `ControlMsg.ctr`).  Returns the
updated session state and the trace of effects. -/
def handle_encrypted_control
    (decryptParse : List Nat → List Nat → Option ControlMsg)
    (st : BleState) (data : List Nat) : BleState × List Event :=
  if st.session_ready = false ∨ data.length < 12 + 16 then (st, [])
  else if data.length - 12 - 16 > 256 then (st, [])
  else
    match decryptParse st.session_key data with
    | none => (st, [])
    | some msg =>
      match msg.ctr with
      | none => (st, [])
      | some ctrv =>
        let r := replay_accept_and_update st ctrv
        if r.1 then
          let cmd : ControlCmd :=
            { actor := ACTOR_BLE, ts := 0, seq := ctrv,
              ramp_ms := msg.ramp_ms.getD 0,
              light_pct := msg.light.getD 0,
              pump_pct := msg.pump.getD 0 }
          (r.2.1, r.2.2 ++ [Event.enqueue cmd])
        else (r.2.1, r.2.2)

/-- Shape of the replay check's effect trace: acceptance produces
exactly one persist of the updated counter/window, rejection produces
nothing and leaves the state unchanged. -/
lemma replay_trace_shape (st : BleState) (ctr : Nat) :
    ((replay_accept_and_update st ctr).1 = true →
      (replay_accept_and_update st ctr).2.2 =
        [Event.persist (replay_accept_and_update st ctr).2.1.peer_counter
          (replay_accept_and_update st ctr).2.1.peer_window]) ∧
    ((replay_accept_and_update st ctr).1 = false →
      (replay_accept_and_update st ctr).2.2 = [] ∧
      (replay_accept_and_update st ctr).2.1 = st) := by
  unfold replay_accept_and_update
  by_cases h0 : st.session_ready = false
  · simp [h0]
  · by_cases h1 : ctr > st.peer_counter
    · simp [h0, h1]
    · by_cases h2 : st.peer_counter - ctr ≥ 64
      · simp [h0, h1, h2]
      · by_cases h3 : st.peer_window &&& (1 <<< (st.peer_counter - ctr)) ≠ 0
        · simp [h0, h1, h2, h3]
        · simp [h0, h1, h2, h3]

/-- The control handler's trace is either empty or
`[persist C' W', enqueue cmd]` with `C'`, `W'` the updated state. -/
lemma handle_encrypted_control_trace_shape
    (dp : List Nat → List Nat → Option ControlMsg)
    (st : BleState) (data : List Nat) :
    (handle_encrypted_control dp st data).2 = [] ∨
    ∃ cmd,
      (handle_encrypted_control dp st data).2 =
        [Event.persist (handle_encrypted_control dp st data).1.peer_counter
          (handle_encrypted_control dp st data).1.peer_window,
          Event.enqueue cmd] := by
  unfold handle_encrypted_control
  by_cases h0 : st.session_ready = false ∨ data.length < 12 + 16
  · simp [h0]
  · by_cases h1 : data.length - 12 - 16 > 256
    · simp [h0, h1]
    · simp only [h0, h1, if_false, ite_false]
      match hdp : dp st.session_key data with
      | none => simp
      | some msg =>
        match hctr : msg.ctr with
        | none => simp [hctr]
        | some ctrv =>
          simp only [hctr]
          by_cases hacc : (replay_accept_and_update st ctrv).1 = true
          · right
            simp only [hacc, if_true]
            rw [(replay_trace_shape st ctrv).1 hacc]
            exact ⟨_, rfl⟩
          · have hfalse : (replay_accept_and_update st ctrv).1 = false := by
              simpa using hacc
            left
            rw [if_neg hacc]
            exact ((replay_trace_shape st ctrv).2 hfalse).1

/-- **C6.** Whenever the control handler's effect trace contains an
`enqueue` of the resulting command record, an earlier position of the
same trace persists the updated replay counter and window to the
durable store: persistence strictly precedes enqueueing, so a crash
between the two can lose a command but never admits a replay of an
already-accepted counter. -/
theorem persist_precedes_enqueue
    (dp : List Nat → List Nat → Option ControlMsg)
    (st : BleState) (data : List Nat) (j : Nat) (cmd : ControlCmd)
    (hj : (handle_encrypted_control dp st data).2.get? j =
      some (Event.enqueue cmd)) :
    ∃ i, i < j ∧
      (handle_encrypted_control dp st data).2.get? i =
        some (Event.persist (handle_encrypted_control dp st data).1.peer_counter
          (handle_encrypted_control dp st data).1.peer_window) := by
  rcases handle_encrypted_control_trace_shape dp st data with h | ⟨cmd', h⟩
  · rw [h] at hj; simp at hj
  · rw [h] at hj
    match j with
    | 0 => simp at hj
    | 1 => exact ⟨0, by omega, by rw [h]; rfl⟩
    | (n+2) => simp [List.get?] at hj

/-- Witness for C6: a session-ready state and an oracle that decrypts to
counter 1; the enqueue sits at index 1 and the persist at index 0. -/
theorem persist_precedes_enqueue_witness :
    ((handle_encrypted_control
        (fun _ _ => some { ctr := some 1, ramp_ms := none, light := none, pump := none })
        { session_key := [], session_ready := true, peer_counter := 0, peer_window := 0 }
        (List.replicate 28 0)).2.get? 1 =
      some (Event.enqueue
        { actor := ACTOR_BLE, ts := 0, seq := 1, light_pct := 0, pump_pct := 0,
          ramp_ms := 0 })) ∧
    ∃ i, i < 1 ∧
      (handle_encrypted_control
        (fun _ _ => some { ctr := some 1, ramp_ms := none, light := none, pump := none })
        { session_key := [], session_ready := true, peer_counter := 0, peer_window := 0 }
        (List.replicate 28 0)).2.get? i =
        some (Event.persist
          (handle_encrypted_control
            (fun _ _ => some { ctr := some 1, ramp_ms := none, light := none, pump := none })
            { session_key := [], session_ready := true, peer_counter := 0, peer_window := 0 }
            (List.replicate 28 0)).1.peer_counter
          (handle_encrypted_control
            (fun _ _ => some { ctr := some 1, ramp_ms := none, light := none, pump := none })
            { session_key := [], session_ready := true, peer_counter := 0, peer_window := 0 }
            (List.replicate 28 0)).1.peer_window) :=
  ⟨by decide,
    persist_precedes_enqueue
      (fun _ _ => some { ctr := some 1, ramp_ms := none, light := none, pump := none })
      { session_key := [], session_ready := true, peer_counter := 0, peer_window := 0 }
      (List.replicate 28 0) 1
      { actor := ACTOR_BLE, ts := 0, seq := 1, light_pct := 0, pump_pct := 0,
        ramp_ms := 0 }
      (by decide)⟩

/-- **C10.** Before a session is established (`s_session_ready` false)
the replay check rejects every counter without touching the state, and
the encrypted-control handler performs no effect at all — in particular
it never enqueues a command record. -/
theorem no_session_rejects_all
    (dp : List Nat → List Nat → Option ControlMsg)
    (st : BleState) (data : List Nat)
    (h : st.session_ready = false) :
    (∀ ctr, replay_accept_and_update st ctr = (false, st, [])) ∧
    handle_encrypted_control dp st data = (st, []) := by
  constructor
  · intro ctr
    unfold replay_accept_and_update
    simp [h]
  · unfold handle_encrypted_control
    simp [h]

/-- Witness for C10 at a concrete not-ready state. -/
theorem no_session_rejects_all_witness :
    ((∀ ctr, replay_accept_and_update
        { session_key := [], session_ready := false, peer_counter := 0,
          peer_window := 0 } ctr =
      (false,
        { session_key := [], session_ready := false, peer_counter := 0,
          peer_window := 0 }, [])) ∧
    handle_encrypted_control (fun _ _ => none)
        { session_key := [], session_ready := false, peer_counter := 0,
          peer_window := 0 } [] =
      ({ session_key := [], session_ready := false, peer_counter := 0,
          peer_window := 0 }, [])) :=
  no_session_rejects_all (fun _ _ => none) _ [] rfl

/-! ## HKDF-SHA256 (`crypto.c`) and the handshake (`ble` component) -/

/-- Byte list of an ASCII string (how the C code passes
`(const uint8_t*)str, strlen(str)`). -/
def str_bytes (s : String) : List Nat := s.data.map Char.toNat

/-- The expand loop of `crypto_hkdf_sha256`: block `i` is
`T(i) = HMAC(prk, T(i-1) ‖ info ‖ [i])`, the counter starting at 1 and
`T(0)` empty.  `hmac` abstracts mbedTLS `mbedtls_md_hmac` with SHA-256. -/
def hkdf_expand_blocks (hmac : List Nat → List Nat → List Nat)
    (prk info : List Nat) : Nat → Nat → List Nat → List Nat
  | 0, _, _ => []
  | n + 1, counter, previous =>
    let T := hmac prk (previous ++ info ++ [counter % 256])
    T ++ hkdf_expand_blocks hmac prk info n (counter + 1) T

/-- `crypto_hkdf_sha256` from `crypto.c`: extract-then-expand, with
`PRK = HMAC(salt, ikm)` and `n = ⌈key_len / 32⌉` expand blocks, of whose
concatenation the first `key_len` bytes are returned. -/
def crypto_hkdf_sha256 (hmac : List Nat → List Nat → List Nat)
    (salt ikm info : List Nat) (key_len : Nat) : List Nat :=
  let prk := hmac salt ikm
  let n := (key_len + 32 - 1) / 32
  (hkdf_expand_blocks hmac prk info n 1 []).take key_len

/-- Hex-nibble decoding as written inline in `handle_handshake`
(`'0'..'9'`, `'a'..'f'`, `'A'..'F'`; anything else aborts). -/
def hex_val (c : Char) : Option Nat :=
  if '0' ≤ c ∧ c ≤ '9' then some (c.toNat - '0'.toNat)
  else if 'a' ≤ c ∧ c ≤ 'f' then some (c.toNat - 'a'.toNat + 10)
  else if 'A' ≤ c ∧ c ≤ 'F' then some (c.toNat - 'A'.toNat + 10)
  else none

/-- The handshake's hex-pair loop: bytes `(v1 <<< 4) ||| v2` from
consecutive character pairs, failing on any non-hex character. -/
def hex_pairs : List Char → Option (List Nat)
  | [] => some []
  | [_] => none
  | c1 :: c2 :: rest =>
    match hex_val c1, hex_val c2 with
    | some v1, some v2 =>
      match hex_pairs rest with
      | some bs => some (((v1 <<< 4) ||| v2) :: bs)
      | none => none
    | _, _ => none

/-- The handshake JSON `{cmd, client_pub, pop}` as cJSON exposes it:
each field present only when the member exists and is a string. -/
structure HandshakeMsg where
  cmd : Option String
  client_pub : Option String
  pop : Option String
deriving DecidableEq, Repr

/-- `handle_handshake` from the BLE component.  External collaborators
are oracles: `parse` is `cJSON_ParseWithLength` (plus the field reads),
`ecdh_gen` is `crypto_ecdh_generate_keypair` (our public key and the
context handle, `none` on failure), `ecdh_shared` is
`crypto_ecdh_compute_shared`, and `hmac` underlies the HKDF.  On
success the session key becomes
`HKDF-SHA256(salt="BLE-POP", ikm=secret, info=pop, L=32)`, the counter
and window are reset to 0 and persisted (`replay_state_save()`). -/
def handle_handshake
    (parse : List Nat → Option HandshakeMsg)
    (ecdh_gen : Option (List Nat × Nat))
    (ecdh_shared : Nat → List Nat → Option (List Nat))
    (hmac : List Nat → List Nat → List Nat)
    (st : BleState) (frame : List Nat) : Bool × BleState × List Event :=
  match parse frame with
  | none => (false, st, [])
  | some msg =>
    match msg.cmd, msg.client_pub, msg.pop with
    | some c, some pubhex, some pop =>
      if c = "handshake" then
        if pubhex.length = 130 then
          match hex_pairs pubhex.data with
          | none => (false, st, [])
          | some peer_pub =>
            match ecdh_gen with
            | none => (false, st, [])
            | some (_our_pub, ctx) =>
              match ecdh_shared ctx peer_pub with
              | none => (false, st, [])
              | some secret =>
                let key := crypto_hkdf_sha256 hmac (str_bytes "BLE-POP")
                  secret (str_bytes pop) 32
                (true,
                  { session_key := key, session_ready := true,
                    peer_counter := 0, peer_window := 0 },
                  [Event.persist 0 0])
        else (false, st, [])
      else (false, st, [])
    | _, _, _ => (false, st, [])

/-- **C7.** A successful handshake derives the session key as
HKDF-SHA256 with salt the bytes of `"BLE-POP"`, ikm the ECDH shared
secret and info the PoP string, and resets the accepted counter and the
window bitmap to 0, persisting both — all before the handler returns,
hence before any control frame is processed on the session. -/
theorem handshake_derives_key_and_resets
    (parse : List Nat → Option HandshakeMsg)
    (ecdh_gen : Option (List Nat × Nat))
    (ecdh_shared : Nat → List Nat → Option (List Nat))
    (hmac : List Nat → List Nat → List Nat)
    (st : BleState) (frame : List Nat)
    (pubhex pop : String) (peer_pub : List Nat)
    (our_pub : List Nat) (ctx : Nat) (secret : List Nat)
    (hparse : parse frame =
      some { cmd := some "handshake", client_pub := some pubhex, pop := some pop })
    (hlen : pubhex.length = 130)
    (hhex : hex_pairs pubhex.data = some peer_pub)
    (hgen : ecdh_gen = some (our_pub, ctx))
    (hshared : ecdh_shared ctx peer_pub = some secret) :
    handle_handshake parse ecdh_gen ecdh_shared hmac st frame =
      (true,
        { session_key :=
            crypto_hkdf_sha256 hmac (str_bytes "BLE-POP") secret (str_bytes pop) 32,
          session_ready := true, peer_counter := 0, peer_window := 0 },
        [Event.persist 0 0]) := by
  unfold handle_handshake
  rw [hparse]
  simp only [hlen, hhex, hgen, hshared, if_true, if_pos rfl]

set_option maxRecDepth 4000 in
/-- Witness for C7: a frame whose oracle parse yields a handshake with a
130-character hex public key of `'a'`s and PoP `"pop"`, and trivial
ECDH/HMAC oracles. -/
theorem handshake_derives_key_and_resets_witness :
    handle_handshake
      (fun _ => some (HandshakeMsg.mk (some "handshake")
        (some (String.mk (List.replicate 130 'a'))) (some "pop")))
      (some ([], 0))
      (fun _ _ => some (List.replicate 32 1))
      (fun _ _ => List.replicate 32 2)
      (BleState.mk [] false 9 9)
      [] =
    (true,
      BleState.mk
        (crypto_hkdf_sha256 (fun _ _ => List.replicate 32 2)
          (str_bytes "BLE-POP") (List.replicate 32 1) (str_bytes "pop") 32)
        true 0 0,
      [Event.persist 0 0]) :=
  handshake_derives_key_and_resets
    (fun _ => some (HandshakeMsg.mk (some "handshake")
      (some (String.mk (List.replicate 130 'a'))) (some "pop")))
    (some ([], 0))
    (fun _ _ => some (List.replicate 32 1))
    (fun _ _ => List.replicate 32 2)
    (BleState.mk [] false 9 9)
    [] (String.mk (List.replicate 130 'a')) "pop"
    (List.replicate 65 170) [] 0 (List.replicate 32 1)
    rfl (by decide) (by decide) rfl rfl

/-! ## Schedule engine (`schedule.c`) -/

/-- `schedule_t`: local on/off wall-clock times plus the timezone
identifier (the `tz` string only acts through the libc conversion,
which is abstracted below). -/
structure ScheduleT where
  on_hour : Nat
  on_min : Nat
  off_hour : Nat
  off_min : Nat
  tz : String
deriving DecidableEq, Repr

/-- The fields of `struct tm` that `is_currently_on` reads after
`localtime_r`. -/
structure Tm where
  tm_hour : Nat
  tm_min : Nat
deriving DecidableEq, Repr

/-- `is_currently_on` from `schedule.c`.  `localtime` abstracts
`localtime_r` (libc, driven by the configured `TZ`); the function
compares minute-of-day values exactly as the C code does. -/
def is_currently_on (localtime : Int → Tm) (now_utc : Int) (s : ScheduleT) :
    Bool :=
  let local_tm := localtime now_utc
  let now_min_of_day := local_tm.tm_hour * 60 + local_tm.tm_min
  let on_min_of_day := s.on_hour * 60 + s.on_min
  let off_min_of_day := s.off_hour * 60 + s.off_min
  if on_min_of_day < off_min_of_day then
    decide (now_min_of_day ≥ on_min_of_day ∧ now_min_of_day < off_min_of_day)
  else
    decide (now_min_of_day ≥ on_min_of_day ∨ now_min_of_day < off_min_of_day)

/-- **C5.** The "currently on" predicate works on the local
minute-of-day: when on < off it holds iff `on ≤ now < off`, otherwise
(overnight) iff `now ≥ on ∨ now < off` — on inclusive, off exclusive;
and with on=22:00, off=06:00 it is true at local 23:00 and 05:59 and
false at local 07:00. -/
theorem is_currently_on_spec :
    (∀ (lt : Int → Tm) (now : Int) (s : ScheduleT),
      let nowm := (lt now).tm_hour * 60 + (lt now).tm_min
      let onm := s.on_hour * 60 + s.on_min
      let offm := s.off_hour * 60 + s.off_min
      (onm < offm →
        (is_currently_on lt now s = true ↔ (onm ≤ nowm ∧ nowm < offm))) ∧
      (¬ onm < offm →
        (is_currently_on lt now s = true ↔ (nowm ≥ onm ∨ nowm < offm)))) ∧
    (∀ (tz : String) (lt : Int → Tm) (now : Int), lt now = Tm.mk 23 0 →
      is_currently_on lt now (ScheduleT.mk 22 0 6 0 tz) = true) ∧
    (∀ (tz : String) (lt : Int → Tm) (now : Int), lt now = Tm.mk 5 59 →
      is_currently_on lt now (ScheduleT.mk 22 0 6 0 tz) = true) ∧
    (∀ (tz : String) (lt : Int → Tm) (now : Int), lt now = Tm.mk 7 0 →
      is_currently_on lt now (ScheduleT.mk 22 0 6 0 tz) = false) := by
  refine ⟨?_, ?_, ?_, ?_⟩
  · intro lt now s
    constructor
    · intro h
      unfold is_currently_on
      simp only [if_pos h]
      constructor
      · intro hd
        exact of_decide_eq_true hd
      · intro hp
        exact decide_eq_true hp
    · intro h
      unfold is_currently_on
      simp only [if_neg h]
      constructor
      · intro hd
        exact of_decide_eq_true hd
      · intro hp
        exact decide_eq_true hp
  · intro tz lt now h
    simp [is_currently_on, h]
  · intro tz lt now h
    simp [is_currently_on, h]
  · intro tz lt now h
    simp [is_currently_on, h]

/-- Witness for C5: concrete local clocks 23:00, 05:59, 07:00 on the
22:00→06:00 overnight schedule, and 08:00 on a 07:00→21:00 daytime
schedule for the general characterization. -/
theorem is_currently_on_spec_witness :
    is_currently_on (fun _ => Tm.mk 23 0) 0 (ScheduleT.mk 22 0 6 0 "UTC") = true ∧
    is_currently_on (fun _ => Tm.mk 5 59) 0 (ScheduleT.mk 22 0 6 0 "UTC") = true ∧
    is_currently_on (fun _ => Tm.mk 7 0) 0 (ScheduleT.mk 22 0 6 0 "UTC") = false ∧
    (is_currently_on (fun _ => Tm.mk 8 0) 0 (ScheduleT.mk 7 0 21 0 "UTC") = true ↔
      (7 * 60 ≤ 8 * 60 ∧ 8 * 60 < 21 * 60)) :=
  ⟨is_currently_on_spec.2.1 "UTC" (fun _ => Tm.mk 23 0) 0 rfl,
    is_currently_on_spec.2.2.1 "UTC" (fun _ => Tm.mk 5 59) 0 rfl,
    is_currently_on_spec.2.2.2 "UTC" (fun _ => Tm.mk 7 0) 0 rfl,
    (is_currently_on_spec.1 (fun _ => Tm.mk 8 0) 0 (ScheduleT.mk 7 0 21 0 "UTC")).1
      (by decide)⟩

/-! ## Safety shutdown and the command FIFO -/

/-- `g_cmd_queue` is created in `app_main.c` with
`xQueueCreate(8, sizeof(control_cmd_t))`. -/
def CMD_QUEUE_LEN : Nat := 8

/-- The bounded command FIFO.  `items.head` is the next element a
receiver obtains. -/
structure CmdQueue where
  items : List ControlCmd
deriving DecidableEq, Repr

/-- `xQueueSend(q, cmd, 0)`: appends at the back; fails (returns
`errQUEUE_FULL`) without blocking when the queue already holds
`CMD_QUEUE_LEN` entries. -/
def xQueueSend (q : CmdQueue) (cmd : ControlCmd) : Bool × CmdQueue :=
  if q.items.length ≥ CMD_QUEUE_LEN then (false, q)
  else (true, CmdQueue.mk (q.items ++ [cmd]))

/-- `xQueueSendToFront(q, cmd, 0)`: inserts at the head; fails without
blocking when the queue is full. -/
def xQueueSendToFront (q : CmdQueue) (cmd : ControlCmd) : Bool × CmdQueue :=
  if q.items.length ≥ CMD_QUEUE_LEN then (false, q)
  else (true, CmdQueue.mk (cmd :: q.items))

/-- `xQueueReceive`: takes from the head. -/
def xQueueReceive (q : CmdQueue) : Option (ControlCmd × CmdQueue) :=
  match q.items with
  | [] => none
  | c :: rest => some (c, CmdQueue.mk rest)

/-- The command record built by `safety_safe_shutdown` (designated
initializer: `seq` is zero-filled, `ts = time(NULL)`). -/
def safety_shutdown_cmd (now : Nat) : ControlCmd :=
  { actor := ACTOR_SAFETY, ts := now, seq := 0, light_pct := 0,
    pump_pct := 0, ramp_ms := 0 }

/-- `safety_safe_shutdown` from the safety component: builds the
all-zero safety command and `xQueueSendToFront`s it with no wait;
returns `ESP_FAIL` (modelled as `false`) when that send did not
succeed. -/
def safety_safe_shutdown (now : Nat) (q : CmdQueue) : Bool × CmdQueue :=
  let cmd := safety_shutdown_cmd now
  let r := xQueueSendToFront q cmd
  if r.1 then (true, r.2) else (false, r.2)

/-- **C3 counterexample.** On a full queue (8 queued commands) the
urgent enqueue of `safety_safe_shutdown` fails — the urgent send is
dropped and the function returns an error, refuting "urgent sends never
drop, for every state of the queue". -/
theorem safety_shutdown_drops_on_full_queue :
    (safety_safe_shutdown 0
      (CmdQueue.mk (List.replicate 8 (safety_shutdown_cmd 0)))).1 = false ∧
    (safety_safe_shutdown 0
      (CmdQueue.mk (List.replicate 8 (safety_shutdown_cmd 0)))).2 =
      CmdQueue.mk (List.replicate 8 (safety_shutdown_cmd 0)) := by
  decide

/-- **C3 amended.** `safety_safe_shutdown` constructs a command with
actor=Safety, light 0, pump 0, ramp 0 and enqueues it at the head of
the FIFO, so when the enqueue succeeds the command is received before
every already-queued command; the urgent enqueue succeeds exactly when
the queue is not full (fewer than 8 entries), and on a full queue it
fails and returns an error. -/
theorem safety_shutdown_head_insertion (now : Nat) (q : CmdQueue) :
    ((safety_shutdown_cmd now).actor = ACTOR_SAFETY ∧
      (safety_shutdown_cmd now).light_pct = 0 ∧
      (safety_shutdown_cmd now).pump_pct = 0 ∧
      (safety_shutdown_cmd now).ramp_ms = 0) ∧
    (q.items.length < CMD_QUEUE_LEN →
      (safety_safe_shutdown now q).1 = true ∧
      (safety_safe_shutdown now q).2 =
        CmdQueue.mk (safety_shutdown_cmd now :: q.items) ∧
      xQueueReceive (safety_safe_shutdown now q).2 =
        some (safety_shutdown_cmd now, q)) ∧
    (q.items.length ≥ CMD_QUEUE_LEN →
      (safety_safe_shutdown now q).1 = false ∧
      (safety_safe_shutdown now q).2 = q) := by
  refine ⟨⟨rfl, rfl, rfl, rfl⟩, ?_, ?_⟩
  · intro h
    have hn : ¬ q.items.length ≥ CMD_QUEUE_LEN := by omega
    unfold safety_safe_shutdown xQueueSendToFront
    simp [hn, xQueueReceive]
  · intro h
    unfold safety_safe_shutdown xQueueSendToFront
    simp [h]

/-- Witness for C3 amended: the empty queue accepts the urgent command
and yields it first; a full queue rejects it. -/
theorem safety_shutdown_head_insertion_witness :
    ((CmdQueue.mk []).items.length < CMD_QUEUE_LEN →
      (safety_safe_shutdown 5 (CmdQueue.mk [])).1 = true ∧
      (safety_safe_shutdown 5 (CmdQueue.mk [])).2 =
        CmdQueue.mk (safety_shutdown_cmd 5 :: (CmdQueue.mk []).items) ∧
      xQueueReceive (safety_safe_shutdown 5 (CmdQueue.mk [])).2 =
        some (safety_shutdown_cmd 5, CmdQueue.mk [])) ∧
    (CmdQueue.mk []).items.length < CMD_QUEUE_LEN :=
  ⟨(safety_shutdown_head_insertion 5 (CmdQueue.mk [])).2.1, by decide⟩

/-! ## OTA version policy (`ota.c`) -/

/-- `ota_check_version_policy` from `ota.c` (C truthiness of
`min_required` is `min_required ≠ 0`). -/
def ota_check_version_policy (current newv min_required : Nat)
    (allow_equal allow_rollback : Bool) : Bool :=
  if allow_rollback = false ∧ newv < current then false
  else if allow_equal = false ∧ newv = current then false
  else if min_required ≠ 0 ∧ current < min_required then true
  else true

/-- The inline version gate of `ota_task` (`ota.c`, step 2): the
pipeline proceeds unless `!allow_rollback && new_version <=
current_version`.  `min_required` is parsed from the manifest but never
consulted here. -/
def ota_task_version_gate (current_version new_version : Nat)
    (allow_rollback : Bool) : Bool :=
  if allow_rollback = false ∧ new_version ≤ current_version then false
  else true

/-- **C2 divergence.** With `new = current = 3` and `min_required = 5`
(current below `min_required`, `allow_rollback` absent, the tests'
`allow_equal = false`), both the helper policy and the `ota_task` gate
*reject* the update, against the spec's "proceed even on equal
version"; moreover `min_required` never influences
`ota_check_version_policy` at all — the forcing branch cannot override
the earlier equality rejection. -/
theorem ota_version_policy_ignores_min_required :
    ota_check_version_policy 3 3 5 false false = false ∧
    ota_task_version_gate 3 3 false = false ∧
    (∀ current newv min1 min2 ae ar,
      ota_check_version_policy current newv min1 ae ar =
        ota_check_version_policy current newv min2 ae ar) := by
  refine ⟨by decide, by decide, ?_⟩
  intro current newv min1 min2 ae ar
  unfold ota_check_version_policy
  by_cases h1 : ar = false ∧ newv < current
  · simp [h1]
  · by_cases h2 : ae = false ∧ newv = current
    · simp [h1, h2]
    · simp only [if_neg h1, if_neg h2]
      by_cases h3 : min1 ≠ 0 ∧ current < min1 <;>
        by_cases h4 : min2 ≠ 0 ∧ current < min2 <;>
          simp [h3, h4]

/-! ## Durable store (`storage.c`) -/

/-- Error codes the storage component returns (ESP-IDF `esp_err_t`
values it actually uses). -/
inductive Esp where
  | OK
  | ERR_INVALID_STATE
  | ERR_INVALID_ARG
  | ERR_NVS_NOT_FOUND
  | ERR_NVS_INVALID_LENGTH
  | ERR_INVALID_CRC
deriving DecidableEq, Repr

/-- The NVS namespace: key → blob.  The flash backend itself is
external; the storage component's record layout and fallback logic on
top of it are embedded below. -/
abbrev Nvs : Type := String → Option (List Nat)

def NVS_KEY_NAME_MAX_SIZE : Nat := 16

/-- `snprintf(backup_key, NVS_KEY_NAME_MAX_SIZE, "%s_bak", key)`:
appends `"_bak"`, truncated to 15 characters. -/
def make_backup_key (key : String) : String :=
  (key ++ "_bak").take (NVS_KEY_NAME_MAX_SIZE - 1)

/-- The four little-endian bytes of a `uint32` CRC as
`storage_save_config` appends them (`*(uint32_t*)(blob + len) = crc`). -/
def le32_bytes (c : Nat) : List Nat :=
  [c % 256, c / 256 % 256, c / 2 ^ 16 % 256, c / 2 ^ 24 % 256]

/-- Reading a `uint32` back from the blob's last four bytes
(`*(uint32_t*)(blob + data_len)` on a little-endian machine). -/
def le32_val (b : List Nat) : Nat :=
  b.getD 0 0 + 256 * b.getD 1 0 + 2 ^ 16 * b.getD 2 0 + 2 ^ 24 * b.getD 3 0

lemma le32_val_le32_bytes (c : Nat) (h : c < 2 ^ 32) :
    le32_val (le32_bytes c) = c := by
  simp only [le32_val, le32_bytes, List.getD_cons_zero, List.getD_cons_succ]
  omega

/-- The record a save materializes: `payload ‖ CRC32(payload)`, the CRC
(a `uint32`) serialized little-endian.  `crc` abstracts `esp_crc32_le`. -/
def record_blob (crc : List Nat → Nat) (data : List Nat) : List Nat :=
  data ++ le32_bytes (crc data % 2 ^ 32)

/-- `storage_save_config` from `storage.c`: backup key first, then the
primary key, then commit (the NVS handle's serialization is the
backend's; both writes land in the returned namespace). -/
def storage_save_config (crc : List Nat → Nat) (inited : Bool) (nvs : Nvs)
    (key : String) (data : List Nat) : Esp × Nvs :=
  if inited = false then (Esp.ERR_INVALID_STATE, nvs)
  else if data.length = 0 then (Esp.ERR_INVALID_ARG, nvs)
  else
    let blob := record_blob crc data
    let bkey := make_backup_key key
    let nvs1 : Nvs := fun k => if k = bkey then some blob else nvs k
    let nvs2 : Nvs := fun k => if k = key then some blob else nvs1 k
    (Esp.OK, nvs2)

/-- `load_and_verify` from `storage.c` (the buffered path,
`out_buf ≠ NULL`): returns the error code, the extracted payload and
the updated `*len`.  `len` is the caller's buffer capacity on entry;
on success it becomes the payload length, and in the buffer-too-small
case it is overwritten with the needed length. -/
def load_and_verify (crc : List Nat → Nat) (nvs : Nvs) (key : String)
    (len : Nat) : Esp × Option (List Nat) × Nat :=
  match nvs key with
  | none => (Esp.ERR_NVS_NOT_FOUND, none, len)
  | some blob =>
    if blob.length ≤ 4 then (Esp.ERR_NVS_INVALID_LENGTH, none, len)
    else
      let data_len := blob.length - 4
      if len < data_len then (Esp.ERR_NVS_INVALID_LENGTH, none, data_len)
      else
        let payload := blob.take data_len
        let stored_crc := le32_val (blob.drop data_len)
        if stored_crc ≠ crc payload % 2 ^ 32 then
          (Esp.ERR_INVALID_CRC, none, len)
        else (Esp.OK, some payload, data_len)

/-- `storage_load_config` from `storage.c`: primary first; on any
primary failure the backup is tried (with the `*len` the primary call
left behind), and a validating backup fills the buffer, updates `*len`
and is written back to the primary key.  Note the returned status on
that branch: `err` still holds the *primary's* failure code — only the
backup-also-failed branch assigns `err = backup_err`, and `err` is
never reset to `ESP_OK` — so the function ends with `return err` and
reports the stale primary error even after a successful fallback.
Returns the error code, the buffer contents, the final `*len` and the
(possibly repaired) namespace. -/
def storage_load_config (crc : List Nat → Nat) (inited : Bool) (nvs : Nvs)
    (key : String) (len : Nat) : Esp × Option (List Nat) × Nat × Nvs :=
  if inited = false then (Esp.ERR_INVALID_STATE, none, len, nvs)
  else
    let r1 := load_and_verify crc nvs key len
    if r1.1 = Esp.OK then (Esp.OK, r1.2.1, r1.2.2, nvs)
    else
      let bkey := make_backup_key key
      let r2 := load_and_verify crc nvs bkey r1.2.2
      if r2.1 = Esp.OK then
        let payload := r2.2.1.getD []
        let blob := record_blob crc payload
        (r1.1, r2.2.1, r2.2.2,
          fun k => if k = key then some blob else nvs k)
      else (r2.1, none, r1.2.2, nvs)

/-- When the primary record validates, `storage_load_config` returns it
directly and leaves the store untouched. -/
lemma storage_load_primary_ok (crc : List Nat → Nat) (nvs : Nvs)
    (key : String) (cap : Nat) (V : List Nat) (blen : Nat)
    (h : load_and_verify crc nvs key cap = (Esp.OK, some V, blen)) :
    storage_load_config crc true nvs key cap = (Esp.OK, some V, blen, nvs) := by
  unfold storage_load_config
  rw [if_neg (by simp)]
  simp only [h]
  simp

lemma record_blob_length (crc : List Nat → Nat) (data : List Nat) :
    (record_blob crc data).length = data.length + 4 := by
  simp [record_blob, le32_bytes]

/-- A key holding an intact `payload ‖ CRC` record loads and validates,
yielding exactly the payload. -/
lemma load_and_verify_record (crc : List Nat → Nat) (nvs : Nvs)
    (key : String) (cap : Nat) (data : List Nat)
    (hk : nvs key = some (record_blob crc data))
    (hne : data ≠ []) (hcap : data.length ≤ cap) :
    load_and_verify crc nvs key cap = (Esp.OK, some data, data.length) := by
  have hpos : 0 < data.length := List.length_pos.mpr hne
  have hlen : (record_blob crc data).length = data.length + 4 :=
    record_blob_length crc data
  have h4 : ¬ (record_blob crc data).length ≤ 4 := by omega
  have hdl : (record_blob crc data).length - 4 = data.length := by omega
  have hcap' : ¬ cap < data.length := by omega
  have htake : (record_blob crc data).take data.length = data :=
    List.take_left data _
  have hdrop : (record_blob crc data).drop data.length =
      le32_bytes (crc data % 2 ^ 32) :=
    List.drop_left data _
  have hcrc : le32_val ((record_blob crc data).drop data.length) =
      crc data % 2 ^ 32 := by
    rw [hdrop]
    exact le32_val_le32_bytes _ (Nat.mod_lt _ (by norm_num))
  unfold load_and_verify
  rw [hk]
  simp only [if_neg h4, hdl, if_neg hcap', htake, hcrc, ne_eq,
    not_true_eq_false, ite_false, if_neg
      (by simp : ¬ (crc data % 2 ^ 32 ≠ crc data % 2 ^ 32))]

/-- **C8.** Save-then-load round trip on the durable store: for any key
and non-empty value `V` fitting the caller's buffer, `save(K,V)`
succeeds and an immediate `load(K)` yields exactly `V`; and after
`save(K,V1); save(K,V2)` a `load(K)` yields `V2` — the most recent
write wins. -/
theorem storage_save_load_roundtrip (crc : List Nat → Nat) (nvs : Nvs)
    (key : String) (v v1 v2 : List Nat) (cap : Nat)
    (hv : v ≠ []) (hcap : v.length ≤ cap)
    (hv2 : v2 ≠ []) (hcap2 : v2.length ≤ cap) :
    ((storage_save_config crc true nvs key v).1 = Esp.OK ∧
      storage_load_config crc true (storage_save_config crc true nvs key v).2
          key cap =
        (Esp.OK, some v, v.length,
          (storage_save_config crc true nvs key v).2)) ∧
    (storage_load_config crc true
        (storage_save_config crc true
          (storage_save_config crc true nvs key v1).2 key v2).2 key cap).2.1 =
      some v2 := by
  have save_primary : ∀ (m : Nvs) (w : List Nat), w ≠ [] →
      (storage_save_config crc true m key w).2 key =
        some (record_blob crc w) := by
    intro m w hw
    unfold storage_save_config
    simp [hw]
  have load_after : ∀ (m : Nvs) (w : List Nat), w ≠ [] → w.length ≤ cap →
      m key = some (record_blob crc w) →
      storage_load_config crc true m key cap = (Esp.OK, some w, w.length, m) := by
    intro m w hw hwc hk
    have hlv := load_and_verify_record crc m key cap w hk hw hwc
    unfold storage_load_config
    simp only [hlv, Bool.true_eq_false, if_false, ite_false, if_pos rfl]
    rfl
  constructor
  · constructor
    · unfold storage_save_config
      simp [hv]
    · exact load_after _ v hv hcap (save_primary nvs v hv)
  · rw [load_after _ v2 hv2 hcap2
      (save_primary (storage_save_config crc true nvs key v1).2 v2 hv2)]

/-- Witness for C8 with a concrete CRC function, key and values. -/
theorem storage_save_load_roundtrip_witness :
    ((storage_save_config (fun l => l.length) true (fun _ => none) "k" [7]).1 =
        Esp.OK ∧
      storage_load_config (fun l => l.length)
          true (storage_save_config (fun l => l.length) true (fun _ => none)
            "k" [7]).2 "k" 8 =
        (Esp.OK, some [7], 1,
          (storage_save_config (fun l => l.length) true (fun _ => none)
            "k" [7]).2)) ∧
    (storage_load_config (fun l => l.length) true
        (storage_save_config (fun l => l.length) true
          (storage_save_config (fun l => l.length) true (fun _ => none)
            "k" [5, 5]).2 "k" [7]).2 "k" 8).2.1 = some [7] := by
  have h := storage_save_load_roundtrip (fun l => l.length) (fun _ => none)
    "k" [7] [5, 5] [7] 8 (by decide) (by decide) (by decide) (by decide)
  exact ⟨⟨by rfl, h.1.2⟩, h.2⟩

/-- **C4 (code bug).** Fallback of the durable store at a concrete
failing input — primary `"k"` absent, spare `"k_bak"` holding an intact
record for payload `[9]`, an 8-byte buffer.  The load fills the buffer
with `[9]`, reports length 1 and rewrites the spare's content to the
primary key (which a subsequent load then validates directly, returning
OK), **but its status is the primary's stale `ERR_NVS_NOT_FOUND`**, not
OK: `err` is never reset on the backup-success branch, so the claimed
"load(K) returns V" fails even though the data and the self-repair are
there.  The both-copies-fail part of the claim does hold: with both
keys absent the load reports `ERR_NVS_NOT_FOUND` and yields no data. -/
theorem storage_load_fallback_returns_stale_error :
    ((storage_load_config (fun l => l.length) true
        (fun k => if k = "k_bak" then
          some (record_blob (fun l => l.length) [9]) else none)
        "k" 8).1 = Esp.ERR_NVS_NOT_FOUND ∧
      (storage_load_config (fun l => l.length) true
        (fun k => if k = "k_bak" then
          some (record_blob (fun l => l.length) [9]) else none)
        "k" 8).2.1 = some [9] ∧
      (storage_load_config (fun l => l.length) true
        (fun k => if k = "k_bak" then
          some (record_blob (fun l => l.length) [9]) else none)
        "k" 8).2.2.1 = 1 ∧
      (storage_load_config (fun l => l.length) true
        (fun k => if k = "k_bak" then
          some (record_blob (fun l => l.length) [9]) else none)
        "k" 8).2.2.2 "k" = some (record_blob (fun l => l.length) [9])) ∧
    ((storage_load_config (fun l => l.length) true
        ((storage_load_config (fun l => l.length) true
          (fun k => if k = "k_bak" then
            some (record_blob (fun l => l.length) [9]) else none)
          "k" 8).2.2.2)
        "k" 8).1 = Esp.OK ∧
      (storage_load_config (fun l => l.length) true
        ((storage_load_config (fun l => l.length) true
          (fun k => if k = "k_bak" then
            some (record_blob (fun l => l.length) [9]) else none)
          "k" 8).2.2.2)
        "k" 8).2.1 = some [9]) ∧
    ((storage_load_config (fun l => l.length) true (fun _ => none)
        "k" 8).1 = Esp.ERR_NVS_NOT_FOUND ∧
      (storage_load_config (fun l => l.length) true (fun _ => none)
        "k" 8).2.1 = none) := by
  decide

end Esp32
